import Mathlib

/-!
Shallow embedding of `src/pages/Profile.tsx` (profile page of the web client).

The page's logic is a handful of event handlers and two async query/mutation
functions over a backend-as-a-service.  We embed each of them as a pure Lean
function over an explicit environment record describing the ambient session,
the backend's responses, the clock and the external link-normalization helper
`convertDropboxUrl` (which lives outside this file in the repository, so it is
abstracted as a `String → String` parameter).  JavaScript `null`/`undefined`
values are modelled with `Option`; JavaScript truthiness on string fields
(`if (x)`) is a test for `some s` with `s ≠ ""`.  Effects (backend reads,
RPC calls, writes, clipboard writes, toasts) are made explicit as counters or
lists in the returned traces.
-/

namespace ValeProfile

/-- A profile row as fetched from the `profiles` table (and as cached by the
query client).  All columns are nullable, hence `Option String`. -/
structure ProfileRow where
  full_name : Option String
  username : Option String
  phone : Option String
  avatar_url : Option String
  cover_url : Option String
  city : Option String
  status : Option String
  deriving DecidableEq, Repr

/-- The edited field values submitted to the mutator (the form value set of
`profileSchema`).  Text fields default to `""`; `avatar_url` / `cover_url`
can additionally be set to `null` by the delete handlers, hence `Option`.
`basic_info_updated_at` is absent from the form defaults and only stamped by
the mutator, hence `Option`. -/
structure FormValues where
  full_name : String
  email : String
  phone : String
  birth_date : String
  street : String
  house_number : String
  city : String
  postal_code : String
  avatar_url : Option String
  cover_url : Option String
  username : String
  bio : String
  website : String
  status : String
  basic_info_updated_at : Option String
  deriving DecidableEq, Repr

/-- The loader's link rewrite (Profile.tsx lines 67-74): a media link is passed
through `convertDropboxUrl` only when the stored value is truthy (a non-empty
string); `null` and `""` are left untouched. -/
def loaderNormalizeLink (convertDropboxUrl : String → String) :
    Option String → Option String
  | some s => if s ≠ "" then some (convertDropboxUrl s) else some s
  | none => none

/-- The mutator's link rewrite (Profile.tsx lines 170-175): same truthiness
guard and same helper applied to the submitted values. -/
def mutatorNormalizeLink (convertDropboxUrl : String → String) :
    Option String → Option String
  | some s => if s ≠ "" then some (convertDropboxUrl s) else some s
  | none => none

/-- Errors the profile loader can throw. -/
inductive LoadError
  | notAuthenticated
  | fetchError (msg : String)
  deriving DecidableEq, Repr

/-- Environment for the profile loader: the ambient session (`none` = no
active session), the backend read of one `profiles` row by id (`.single()`
either errors or yields at most one row), and the external link helper. -/
structure LoaderEnv where
  session : Option String
  fetchProfile : String → Except String (Option ProfileRow)
  convertDropboxUrl : String → String

/-- The part of the `profile` queryFn after the session guard (Profile.tsx
lines 59-76): one backend read, error propagation, then the link rewrite of
lines 67-74 on the fetched row. -/
def profileQueryFnAuthed (env : LoaderEnv) (uid : String) :
    Except LoadError (Option ProfileRow) × Nat :=
  match env.fetchProfile uid with
  | Except.error e => (Except.error (LoadError.fetchError e), 1)
  | Except.ok none => (Except.ok none, 1)
  | Except.ok (some d) =>
    (Except.ok (some { d with
      avatar_url := loaderNormalizeLink env.convertDropboxUrl d.avatar_url,
      cover_url := loaderNormalizeLink env.convertDropboxUrl d.cover_url }), 1)

/-- The `profile` queryFn (Profile.tsx lines 55-77).  Returns the outcome
together with the number of backend reads attempted. -/
def profileQueryFn (env : LoaderEnv) : Except LoadError (Option ProfileRow) × Nat :=
  match env.session with
  | none => (Except.error LoadError.notAuthenticated, 0)
  | some uid => profileQueryFnAuthed env uid

/-- Errors the profile mutator can throw. -/
inductive MutError
  | notAuthenticated
  | rpcError (msg : String)
  | cooldown (msg : String)
  | writeError (msg : String)
  deriving DecidableEq, Repr

/-- The 30-day domain error message thrown at Profile.tsx line 187. -/
def cooldownMessage : String :=
  "Você só pode alterar seu @ ou telefone após 30 dias da última atualização."

/-- Environment for the mutator: ambient session, the
`can_update_basic_info` RPC response, the outcome of the backend `update`
(`some msg` = write error), the current clock reading, and the link helper. -/
structure MutEnv where
  session : Option String
  canUpdateBasicInfo : String → Except String Bool
  writeResult : Option String
  now : String
  convertDropboxUrl : String → String

/-- Observable trace of one mutator run: the thrown/returned outcome, how many
times the eligibility RPC was invoked, and the field sets passed to the
backend `update` call (in order). -/
structure MutationTrace where
  result : Except MutError Unit
  rpcCalls : Nat
  writes : List FormValues
  deriving Repr

/-- The final backend write step (Profile.tsx lines 193-198): the `update` is
invoked with the given field set and its error, if any, is thrown. -/
def performWrite (env : MutEnv) (values : FormValues) (rpc : Nat) : MutationTrace :=
  match env.writeResult with
  | some e => { result := Except.error (MutError.writeError e), rpcCalls := rpc, writes := [values] }
  | none => { result := Except.ok (), rpcCalls := rpc, writes := [values] }

/-- The in-place reassignment of `values.avatar_url` / `values.cover_url`
performed by the mutator (Profile.tsx lines 170-175). -/
def normalizeValues (convertDropboxUrl : String → String) (values : FormValues) : FormValues :=
  { values with
    avatar_url := mutatorNormalizeLink convertDropboxUrl values.avatar_url,
    cover_url := mutatorNormalizeLink convertDropboxUrl values.cover_url }

/-- The stamping of the current time onto the restricted-field timestamp
(Profile.tsx line 190), applied to the normalized values. -/
def stampValues (env : MutEnv) (values : FormValues) : FormValues :=
  { normalizeValues env.convertDropboxUrl values with
    basic_info_updated_at := some env.now }

/-- The part of `updateProfile.mutationFn` after the session guard
(Profile.tsx lines 170-198): normalize the media links, compare username and
phone against the cached profile, run the eligibility RPC and stamp the
timestamp when a restricted field changed, then write.  The JS comparison
`values.username !== profile?.username` is `some values.username ≠
cachedProfile?.username` since a string never equals `null`/`undefined`. -/
def mutationFnAuthed (env : MutEnv) (uid : String) (cachedProfile : Option ProfileRow)
    (values : FormValues) : MutationTrace :=
  if some (normalizeValues env.convertDropboxUrl values).username ≠
       Option.bind cachedProfile ProfileRow.username ∨
     some (normalizeValues env.convertDropboxUrl values).phone ≠
       Option.bind cachedProfile ProfileRow.phone then
    match env.canUpdateBasicInfo uid with
    | Except.error e =>
      { result := Except.error (MutError.rpcError e), rpcCalls := 1, writes := [] }
    | Except.ok canUpdate =>
      if !canUpdate then
        { result := Except.error (MutError.cooldown cooldownMessage),
          rpcCalls := 1, writes := [] }
      else
        performWrite env (stampValues env values) 1
  else
    performWrite env (normalizeValues env.convertDropboxUrl values) 0

/-- `updateProfile.mutationFn` (Profile.tsx lines 166-199): session guard,
then the authenticated body.  `cachedProfile` is the query client's cached
`profile` (possibly `undefined`). -/
def mutationFn (env : MutEnv) (cachedProfile : Option ProfileRow)
    (values : FormValues) : MutationTrace :=
  match env.session with
  | none => { result := Except.error MutError.notAuthenticated, rpcCalls := 0, writes := [] }
  | some uid => mutationFnAuthed env uid cachedProfile values

/-- `copyProfileLink` (Profile.tsx lines 155-163): guarded by truthiness of
`profile?.username`; returns the list of clipboard writes performed. -/
def copyProfileLink (origin : String) (profile : Option ProfileRow) : List String :=
  match Option.bind profile ProfileRow.username with
  | some u => if u ≠ "" then [origin ++ "/perfil/" ++ u] else []
  | none => []

/-- A row of the `products` table (only the owner key matters here). -/
structure Product where
  id : String
  user_id : String
  deriving DecidableEq, Repr

/-- The `userProducts` queryFn (Profile.tsx lines 82-92): no session yields
`[]` without reading the backend; a `null` backend result also yields `[]`
(`return data || []`); errors are never thrown (the `error` field of the
response is ignored), which the total return type reflects. -/
def userProductsQueryFn (session : Option String)
    (fetchProducts : String → Option (List Product)) : List Product :=
  match session with
  | none => []
  | some uid =>
    match fetchProducts uid with
    | some ps => ps
    | none => []

/-- The interactive controls the page can render (Profile.tsx lines 328-370):
photo-edit button, edit-profile dialog trigger, the dropdown's copy-link and
view-as-visitor items, and the exit-preview button. -/
inductive Control
  | editPhotos
  | editProfile
  | copyLink
  | viewAsVisitor
  | exitPreview
  deriving DecidableEq, Repr

/-- The control set rendered for a given value of the `isPreviewMode` flag
(the `!isPreviewMode ? ... : ...` branch at Profile.tsx lines 328-370). -/
def renderedControls (isPreviewMode : Bool) : List Control :=
  if isPreviewMode then [Control.exitPreview]
  else [Control.editPhotos, Control.editProfile, Control.copyLink, Control.viewAsVisitor]

/-- User click events that can touch the preview flag. -/
inductive MenuEvent
  | clickCopyLink
  | clickViewAsVisitor
  | clickExitPreview
  deriving DecidableEq, Repr

/-- One step of the preview-flag state machine: a click only fires when its
control is rendered in the current state; `setIsPreviewMode(true)` on the
view-as-visitor item, `setIsPreviewMode(false)` on the exit button, and the
copy-link item leaves the flag alone. -/
def previewStep (isPreviewMode : Bool) (e : MenuEvent) : Bool :=
  match e with
  | MenuEvent.clickCopyLink => isPreviewMode
  | MenuEvent.clickViewAsVisitor =>
    if Control.viewAsVisitor ∈ renderedControls isPreviewMode then true else isPreviewMode
  | MenuEvent.clickExitPreview =>
    if Control.exitPreview ∈ renderedControls isPreviewMode then false else isPreviewMode

/-- Profile.tsx line 23. -/
def defaultAvatarImage : String := "/placeholder.svg"

/-- Profile.tsx line 24. -/
def defaultCoverImage : String := "/placeholder.svg"

/-- The observable effect of an image-error handler: the replacement `src`
written to the failing element (if any) and the titles of the toasts it
raises. -/
structure ImgErrorEffect where
  newSrc : Option String
  toastTitles : List String
  deriving DecidableEq, Repr

/-- The `onError` attached to the cover `img` (Profile.tsx lines 277-279):
it only swaps the element's `src` for the placeholder. -/
def coverOnError : ImgErrorEffect :=
  { newSrc := some defaultCoverImage, toastTitles := [] }

/-- The `onError` attached to the avatar `img` (Profile.tsx lines 296-298):
it only swaps the element's `src` for the placeholder. -/
def avatarOnError : ImgErrorEffect :=
  { newSrc := some defaultAvatarImage, toastTitles := [] }

/-- `handleImageError` (Profile.tsx lines 145-153): raises a destructive
toast and does not touch any `src`.  It is defined in the component but never
attached to either rendered image. -/
def handleImageError : ImgErrorEffect :=
  { newSrc := none, toastTitles := ["Erro ao carregar a imagem"] }

/-- The cover `src` actually displayed: the stored link when truthy (swapped
for the placeholder after a load failure), or no `img` element at all. -/
def displayedCoverSrc (profile : Option ProfileRow) (loadFailed : Bool) : Option String :=
  match Option.bind profile ProfileRow.cover_url with
  | some u => if u ≠ "" then some (if loadFailed then defaultCoverImage else u) else none
  | none => none

/-- The avatar `src` actually displayed, analogously. -/
def displayedAvatarSrc (profile : Option ProfileRow) (loadFailed : Bool) : Option String :=
  match Option.bind profile ProfileRow.avatar_url with
  | some u => if u ≠ "" then some (if loadFailed then defaultAvatarImage else u) else none
  | none => none

/-- The page structure relevant to the claims: which controls are rendered,
what the two images show, and whether the tabs and bottom navigation render. -/
structure PageView where
  controls : List Control
  coverSrc : Option String
  avatarSrc : Option String
  tabsShown : Bool
  bottomNavShown : Bool
  deriving DecidableEq, Repr

/-- The render of the loaded page (Profile.tsx lines 255-381): controls depend
only on the preview flag, image sources only on the profile row and each
image's own load failure, and the tabs and bottom navigation render
unconditionally. -/
def renderProfilePage (isPreviewMode : Bool) (profile : Option ProfileRow)
    (coverFailed avatarFailed : Bool) : PageView :=
  { controls := renderedControls isPreviewMode,
    coverSrc := displayedCoverSrc profile coverFailed,
    avatarSrc := displayedAvatarSrc profile avatarFailed,
    tabsShown := true,
    bottomNavShown := true }

/-- Observable trace of a photo-replacement click handler: the field sets
passed to `updateProfile.mutate` and the form state afterwards. -/
structure ClickTrace where
  mutations : List FormValues
  formAfter : FormValues
  deriving DecidableEq, Repr

/-- `handleCoverImageClick` (Profile.tsx lines 126-135): `window.prompt`
returning `null` does nothing; any string result (also `""`) is spread into
the current form values as `cover_url` and mutated once.  The form itself is
not written. -/
def handleCoverImageClick (form : FormValues) (promptResult : Option String) : ClickTrace :=
  match promptResult with
  | none => { mutations := [], formAfter := form }
  | some link =>
    { mutations := [{ form with cover_url := some link }], formAfter := form }

/-- `handleAvatarImageClick` (Profile.tsx lines 137-143): `null` does nothing;
a string result is first written into the form (`form.setValue`) and the
resulting values mutated once. -/
def handleAvatarImageClick (form : FormValues) (promptResult : Option String) : ClickTrace :=
  match promptResult with
  | none => { mutations := [], formAfter := form }
  | some link =>
    { mutations := [{ form with avatar_url := some link }],
      formAfter := { form with avatar_url := some link } }

/-! ### Concrete sample data used by the witnesses -/

/-- A concrete cached profile row. -/
def sampleRow : ProfileRow :=
  { full_name := some "Ana Silva", username := some "ana", phone := some "111",
    avatar_url := none, cover_url := none, city := some "Recife", status := none }

/-- A concrete submitted field set matching `sampleRow`'s username and phone. -/
def sampleForm : FormValues :=
  { full_name := "Ana Silva", email := "a@x.test", phone := "111",
    birth_date := "", street := "", house_number := "", city := "Recife",
    postal_code := "", avatar_url := some "https://db/a", cover_url := some "",
    username := "ana", bio := "", website := "", status := "",
    basic_info_updated_at := none }

/-- `sampleForm` with a changed phone. -/
def newPhoneForm : FormValues := { sampleForm with phone := "222" }

/-- `sampleForm` with a changed username. -/
def newUsernameForm : FormValues := { sampleForm with username := "bia" }

/-- A concrete mutator environment whose eligibility RPC answers `true`. -/
def allowEnv : MutEnv :=
  { session := some "u1", canUpdateBasicInfo := fun _ => Except.ok true,
    writeResult := none, now := "2026-10-11T00:00:00Z", convertDropboxUrl := id }

/-- `allowEnv` with the eligibility RPC answering `false`. -/
def denyEnv : MutEnv := { allowEnv with canUpdateBasicInfo := fun _ => Except.ok false }

/-- A concrete loader environment with no active session. -/
def noSessionLoaderEnv : LoaderEnv :=
  { session := none, fetchProfile := fun _ => Except.ok none, convertDropboxUrl := id }

/-- A concrete profile row with both media links present. -/
def failRow : ProfileRow :=
  { full_name := none, username := none, phone := none,
    avatar_url := some "https://cdn/c", cover_url := some "https://cdn/c",
    city := none, status := none }

/-! ### Helper lemmas shared by the claim theorems -/

theorem mutationFn_session_none (env : MutEnv) (cached : Option ProfileRow)
    (values : FormValues) (hs : env.session = none) :
    mutationFn env cached values =
      { result := Except.error MutError.notAuthenticated, rpcCalls := 0, writes := [] } := by
  unfold mutationFn
  rw [hs]

theorem mutationFn_session_some (env : MutEnv) (uid : String)
    (cached : Option ProfileRow) (values : FormValues) (hs : env.session = some uid) :
    mutationFn env cached values = mutationFnAuthed env uid cached values := by
  unfold mutationFn
  rw [hs]

theorem profileQueryFn_session_some (env : LoaderEnv) (uid : String)
    (hs : env.session = some uid) :
    profileQueryFn env = profileQueryFnAuthed env uid := by
  unfold profileQueryFn
  rw [hs]

theorem performWrite_writes (env : MutEnv) (v : FormValues) (n : Nat) :
    (performWrite env v n).writes = [v] := by
  unfold performWrite
  cases env.writeResult <;> rfl

theorem performWrite_rpcCalls (env : MutEnv) (v : FormValues) (n : Nat) :
    (performWrite env v n).rpcCalls = n := by
  unfold performWrite
  cases env.writeResult <;> rfl

theorem normalizeValues_username (c : String → String) (v : FormValues) :
    (normalizeValues c v).username = v.username := rfl

theorem normalizeValues_phone (c : String → String) (v : FormValues) :
    (normalizeValues c v).phone = v.phone := rfl

theorem normalizeValues_stamp (c : String → String) (v : FormValues) :
    (normalizeValues c v).basic_info_updated_at = v.basic_info_updated_at := rfl

theorem normalizeValues_avatar (c : String → String) (v : FormValues) :
    (normalizeValues c v).avatar_url = mutatorNormalizeLink c v.avatar_url := rfl

theorem normalizeValues_cover (c : String → String) (v : FormValues) :
    (normalizeValues c v).cover_url = mutatorNormalizeLink c v.cover_url := rfl

/-! ### Claim theorems -/

/-- C4: with no active session the profile loader fails with the
authentication error, attempts no backend read, and returns no data at all. -/
theorem no_session_loader_fails (env : LoaderEnv) (hs : env.session = none) :
    profileQueryFn env = (Except.error LoadError.notAuthenticated, 0) := by
  unfold profileQueryFn
  rw [hs]

/-- C4 witness: the theorem at the concrete no-session environment. -/
theorem no_session_loader_fails_witness :
    profileQueryFn noSessionLoaderEnv = (Except.error LoadError.notAuthenticated, 0) :=
  no_session_loader_fails noSessionLoaderEnv rfl

/-- C5: for every profile with a non-empty username `u`, the copy-link action
writes exactly `origin ++ "/perfil/" ++ u` to the clipboard. -/
theorem copy_profile_link_format (origin : String) (profile : Option ProfileRow)
    (u : String) (hu : Option.bind profile ProfileRow.username = some u)
    (hne : u ≠ "") :
    copyProfileLink origin profile = [origin ++ "/perfil/" ++ u] := by
  unfold copyProfileLink
  rw [hu]
  simp [hne]

/-- C5 witness: username "ana" and origin "https://x.test" yield exactly
"https://x.test/perfil/ana". -/
theorem copy_profile_link_format_witness :
    copyProfileLink "https://x.test" (some sampleRow) = ["https://x.test/perfil/ana"] :=
  Eq.trans
    (copy_profile_link_format "https://x.test" (some sampleRow) "ana" rfl (by decide))
    (by decide)

/-- C9: the products loader returns `[]` with no session (without throwing)
and `[]` when the backend result is `null`; it is a total function, so it
never throws at all. -/
theorem products_loader_never_throws
    (fetchProducts : String → Option (List Product)) (uid : String)
    (hnull : fetchProducts uid = none) :
    userProductsQueryFn none fetchProducts = [] ∧
    userProductsQueryFn (some uid) fetchProducts = [] := by
  refine ⟨rfl, ?_⟩
  simp only [userProductsQueryFn, hnull]

/-- C9 witness: the theorem at a concrete backend returning `null`. -/
theorem products_loader_never_throws_witness :
    userProductsQueryFn none (fun _ => none) = [] ∧
    userProductsQueryFn (some "u1") (fun _ => none) = [] :=
  products_loader_never_throws (fun _ => none) "u1" rfl

/-- C10: cancelling either replacement prompt performs no mutation and leaves
the form untouched; a non-`null` prompt result (including `""`) performs
exactly one mutation carrying that result as the corresponding media link. -/
theorem prompt_click_frame (form : FormValues) (link : String) :
    handleCoverImageClick form none = { mutations := [], formAfter := form } ∧
    handleAvatarImageClick form none = { mutations := [], formAfter := form } ∧
    handleCoverImageClick form (some link) =
      { mutations := [{ form with cover_url := some link }], formAfter := form } ∧
    handleAvatarImageClick form (some link) =
      { mutations := [{ form with avatar_url := some link }],
        formAfter := { form with avatar_url := some link } } :=
  ⟨rfl, rfl, rfl, rfl⟩

/-- C1: when the submitted username differs from the cached profile's
username and the eligibility RPC answers `false`, the mutator fails with the
30-day domain error and the backend write is never invoked. -/
theorem username_change_denied_atomic (env : MutEnv) (cached : Option ProfileRow)
    (values : FormValues) (uid : String)
    (hs : env.session = some uid)
    (hu : some values.username ≠ Option.bind cached ProfileRow.username)
    (hc : env.canUpdateBasicInfo uid = Except.ok false) :
    (mutationFn env cached values).result =
      Except.error (MutError.cooldown cooldownMessage) ∧
    (mutationFn env cached values).writes = [] := by
  rw [mutationFn_session_some env uid cached values hs]
  unfold mutationFnAuthed
  simp only [normalizeValues_username, normalizeValues_phone]
  rw [if_pos (Or.inl hu)]
  rw [hc]
  exact ⟨rfl, rfl⟩

/-- C1 witness: the theorem at a concrete denied username change. -/
theorem username_change_denied_atomic_witness :
    (mutationFn denyEnv (some sampleRow) newUsernameForm).result =
      Except.error (MutError.cooldown cooldownMessage) ∧
    (mutationFn denyEnv (some sampleRow) newUsernameForm).writes = [] :=
  username_change_denied_atomic denyEnv (some sampleRow) newUsernameForm "u1"
    rfl (by decide) rfl

/-- C2: when the submitted username and phone both equal the cached profile's
username and phone, the eligibility RPC is never invoked and every field set
passed to the backend write carries the submitted `basic_info_updated_at`
unchanged (no fresh stamp). -/
theorem unchanged_fields_skip_check (env : MutEnv) (p : ProfileRow)
    (values : FormValues)
    (hu : p.username = some values.username)
    (hp : p.phone = some values.phone) :
    (mutationFn env (some p) values).rpcCalls = 0 ∧
    ((mutationFn env (some p) values).writes.all fun w =>
      w.basic_info_updated_at == values.basic_info_updated_at) = true := by
  cases hsess : env.session with
  | none =>
    rw [mutationFn_session_none env (some p) values hsess]
    exact ⟨rfl, rfl⟩
  | some uid =>
    rw [mutationFn_session_some env uid (some p) values hsess]
    unfold mutationFnAuthed
    rw [if_neg ?hcond]
    case hcond =>
      rw [not_or]
      refine ⟨?_, ?_⟩
      · rw [not_ne_iff]
        exact hu.symm
      · rw [not_ne_iff]
        exact hp.symm
    refine ⟨performWrite_rpcCalls env _ 0, ?_⟩
    rw [performWrite_writes env _ 0]
    simp [normalizeValues_stamp]

/-- C2 witness: the theorem at a concrete unchanged submission. -/
theorem unchanged_fields_skip_check_witness :
    (mutationFn allowEnv (some sampleRow) sampleForm).rpcCalls = 0 ∧
    ((mutationFn allowEnv (some sampleRow) sampleForm).writes.all fun w =>
      w.basic_info_updated_at == sampleForm.basic_info_updated_at) = true :=
  unchanged_fields_skip_check allowEnv sampleRow sampleForm rfl rfl

/-- C3: when the submitted phone differs from the cached profile's phone and
the eligibility RPC answers `true`, exactly one backend write is invoked and
its field set carries the new phone and `basic_info_updated_at` stamped with
the current time. -/
theorem changed_phone_allowed_writes (env : MutEnv) (cached : Option ProfileRow)
    (values : FormValues) (uid : String)
    (hs : env.session = some uid)
    (hp : some values.phone ≠ Option.bind cached ProfileRow.phone)
    (hc : env.canUpdateBasicInfo uid = Except.ok true) :
    (mutationFn env cached values).writes.length = 1 ∧
    ((mutationFn env cached values).writes.all fun w =>
      (w.phone == values.phone) && (w.basic_info_updated_at == some env.now)) = true := by
  rw [mutationFn_session_some env uid cached values hs]
  unfold mutationFnAuthed
  simp only [normalizeValues_username, normalizeValues_phone]
  rw [if_pos (Or.inr hp)]
  rw [hc]
  show (performWrite env (stampValues env values) 1).writes.length = 1 ∧
    ((performWrite env (stampValues env values) 1).writes.all fun w =>
      (w.phone == values.phone) && (w.basic_info_updated_at == some env.now)) = true
  rw [performWrite_writes env (stampValues env values) 1]
  refine ⟨rfl, ?_⟩
  simp [stampValues, normalizeValues]

/-- C3 witness: the theorem at a concrete permitted phone change. -/
theorem changed_phone_allowed_writes_witness :
    (mutationFn allowEnv (some sampleRow) newPhoneForm).writes.length = 1 ∧
    ((mutationFn allowEnv (some sampleRow) newPhoneForm).writes.all fun w =>
      (w.phone == newPhoneForm.phone) &&
        (w.basic_info_updated_at == some allowEnv.now)) = true :=
  changed_phone_allowed_writes allowEnv (some sampleRow) newPhoneForm "u1"
    rfl (by decide) rfl

/-- C6: the loader and the mutator normalize media links identically: the two
rewrites agree on every link and every helper, empty and absent links are
left untransformed, every field set the mutator writes carries exactly the
mutator-normalized links, and the loader's returned row carries exactly the
loader-normalized links. -/
theorem normalization_refinement :
    (∀ c link, loaderNormalizeLink c link = mutatorNormalizeLink c link) ∧
    (∀ c, mutatorNormalizeLink c none = none ∧
      mutatorNormalizeLink c (some "") = some "") ∧
    (∀ env uid cached values, env.session = some uid →
      ((mutationFn env cached values).writes.all fun w =>
        (w.avatar_url == mutatorNormalizeLink env.convertDropboxUrl values.avatar_url) &&
        (w.cover_url == mutatorNormalizeLink env.convertDropboxUrl values.cover_url)) = true) ∧
    (∀ env uid d, env.session = some uid →
      env.fetchProfile uid = Except.ok (some d) →
      profileQueryFn env = (Except.ok (some { d with
        avatar_url := loaderNormalizeLink env.convertDropboxUrl d.avatar_url,
        cover_url := loaderNormalizeLink env.convertDropboxUrl d.cover_url }), 1)) := by
  refine ⟨?_, ?_, ?_, ?_⟩
  · intro c link
    cases link <;> rfl
  · intro c
    exact ⟨rfl, rfl⟩
  · intro env uid cached values hs
    rw [mutationFn_session_some env uid cached values hs]
    unfold mutationFnAuthed
    split
    · cases hrc : env.canUpdateBasicInfo uid with
      | error e => rfl
      | ok b =>
        cases b with
        | false => rfl
        | true =>
          show ((performWrite env (stampValues env values) 1).writes.all fun w =>
            (w.avatar_url == mutatorNormalizeLink env.convertDropboxUrl values.avatar_url) &&
            (w.cover_url == mutatorNormalizeLink env.convertDropboxUrl values.cover_url)) = true
          rw [performWrite_writes env (stampValues env values) 1]
          simp [stampValues, normalizeValues]
    · rw [performWrite_writes env (normalizeValues env.convertDropboxUrl values) 0]
      simp [normalizeValues]
  · intro env uid d hs hf
    rw [profileQueryFn_session_some env uid hs]
    unfold profileQueryFnAuthed
    rw [hf]

/-- The field set written by the concrete permitted phone change of
`allowEnv` / `newPhoneForm`. -/
def allowWritten : FormValues :=
  { newPhoneForm with basic_info_updated_at := some "2026-10-11T00:00:00Z" }

/-- C6 witness: the theorem's clauses at concrete inputs. -/
theorem normalization_refinement_witness :
    loaderNormalizeLink String.toUpper (some "a") =
      mutatorNormalizeLink String.toUpper (some "a") ∧
    (mutationFn allowEnv (some sampleRow) newPhoneForm).writes = [allowWritten] ∧
    allowWritten.avatar_url =
      mutatorNormalizeLink allowEnv.convertDropboxUrl newPhoneForm.avatar_url ∧
    allowWritten.cover_url =
      mutatorNormalizeLink allowEnv.convertDropboxUrl newPhoneForm.cover_url := by
  have hwr : (mutationFn allowEnv (some sampleRow) newPhoneForm).writes = [allowWritten] := by
    decide
  have hall := normalization_refinement.2.2.1 allowEnv "u1" (some sampleRow) newPhoneForm rfl
  rw [hwr] at hall
  simp only [List.all_cons, List.all_nil, Bool.and_true, Bool.and_eq_true,
    beq_iff_eq] at hall
  exact ⟨normalization_refinement.1 String.toUpper (some "a"), hwr, hall.1, hall.2⟩

/-- C7: the preview flag is a two-state machine: preview state renders only
the exit control, normal state renders the full control set, and the flag
changes only by the view-as-visitor click (normal to preview) and the exit
click (preview to normal). -/
theorem preview_two_state_machine :
    renderedControls true = [Control.exitPreview] ∧
    renderedControls false =
      [Control.editPhotos, Control.editProfile, Control.copyLink, Control.viewAsVisitor] ∧
    ∀ b e, previewStep b e ≠ b →
      (b = false ∧ e = MenuEvent.clickViewAsVisitor ∧ previewStep b e = true) ∨
      (b = true ∧ e = MenuEvent.clickExitPreview ∧ previewStep b e = false) := by
  refine ⟨rfl, rfl, ?_⟩
  intro b e
  cases b <;> cases e <;> decide

/-- C7 witness: the view-as-visitor click from the normal state, via the
theorem. -/
theorem preview_two_state_machine_witness :
    (false = false ∧ MenuEvent.clickViewAsVisitor = MenuEvent.clickViewAsVisitor ∧
      previewStep false MenuEvent.clickViewAsVisitor = true) ∨
    (false = true ∧ MenuEvent.clickViewAsVisitor = MenuEvent.clickExitPreview ∧
      previewStep false MenuEvent.clickViewAsVisitor = false) :=
  preview_two_state_machine.2.2 false MenuEvent.clickViewAsVisitor (by decide)

/-- C8 counterexample: the `onError` handlers actually attached to the cover
and avatar images raise no toast at all, so a load failure is not accompanied
by a user-visible warning notification; the toast-raising `handleImageError`
exists but is attached to neither image. -/
theorem image_error_no_warning_counterexample :
    coverOnError.toastTitles = [] ∧ avatarOnError.toastTitles = [] ∧
    handleImageError.toastTitles = ["Erro ao carregar a imagem"] :=
  ⟨rfl, rfl, rfl⟩

/-- C8 (amended): a failed avatar or cover load replaces the rendered source
with the local placeholder and leaves the rest of the page (controls, tabs,
bottom navigation) intact, but no warning notification is raised by the
attached handlers. -/
theorem image_error_fallback (isPreviewMode : Bool) (profile : Option ProfileRow)
    (coverFailed avatarFailed : Bool) (u v : String)
    (hu : u ≠ "") (hv : v ≠ "")
    (hcov : Option.bind profile ProfileRow.cover_url = some u)
    (hav : Option.bind profile ProfileRow.avatar_url = some v) :
    coverOnError = { newSrc := some defaultCoverImage, toastTitles := [] } ∧
    avatarOnError = { newSrc := some defaultAvatarImage, toastTitles := [] } ∧
    (renderProfilePage isPreviewMode profile true avatarFailed).coverSrc =
      some defaultCoverImage ∧
    (renderProfilePage isPreviewMode profile coverFailed true).avatarSrc =
      some defaultAvatarImage ∧
    (renderProfilePage isPreviewMode profile coverFailed avatarFailed).tabsShown = true ∧
    (renderProfilePage isPreviewMode profile coverFailed avatarFailed).bottomNavShown = true ∧
    (renderProfilePage isPreviewMode profile coverFailed avatarFailed).controls =
      renderedControls isPreviewMode := by
  refine ⟨rfl, rfl, ?_, ?_, rfl, rfl, rfl⟩
  · show displayedCoverSrc profile true = some defaultCoverImage
    unfold displayedCoverSrc
    rw [hcov]
    simp [hu]
  · show displayedAvatarSrc profile true = some defaultAvatarImage
    unfold displayedAvatarSrc
    rw [hav]
    simp [hv]

/-- C8 witness: the amended theorem at a concrete row with both images. -/
theorem image_error_fallback_witness :
    coverOnError = { newSrc := some defaultCoverImage, toastTitles := [] } ∧
    avatarOnError = { newSrc := some defaultAvatarImage, toastTitles := [] } ∧
    (renderProfilePage false (some failRow) true true).coverSrc =
      some defaultCoverImage ∧
    (renderProfilePage false (some failRow) true true).avatarSrc =
      some defaultAvatarImage ∧
    (renderProfilePage false (some failRow) true true).tabsShown = true ∧
    (renderProfilePage false (some failRow) true true).bottomNavShown = true ∧
    (renderProfilePage false (some failRow) true true).controls =
      renderedControls false :=
  image_error_fallback false (some failRow) true true "https://cdn/c" "https://cdn/c"
    (by decide) (by decide) rfl rfl

end ValeProfile
